import Mathlib

/-!
Verification development for the Infinite Campus homework-agent scrapers.
The definitions below are a shallow embedding of the Python sources,
chiefly `src/deployment/aws/configured_server.py` (the configured HTTP
dispatcher and its scraping pipeline), `src/server.py` (the stdio MCP
dispatcher) and `src/improved_server.py` (the probing login flow).
Pages are modelled by the selector queries that match on them together
with the text content of the table rows / cards the code reads;
`datetime` instants are modelled as integer seconds (Rata Die day number
times 86400), so that `datetime` comparison and `timedelta(days=n)`
subtraction are exactly integer comparison and subtraction.
-/

/-- Python `str.strip()`: drops leading and trailing whitespace. -/
def pyStrip (s : String) : String :=
  String.mk (((s.toList.dropWhile Char.isWhitespace).reverse.dropWhile Char.isWhitespace).reverse)

/-- Python `str.lower()` (ASCII case mapping suffices for this code). -/
def pyLower (s : String) : String := String.mk (s.toList.map Char.toLower)

/-- Python truthiness of a string: `True` exactly when non-empty. -/
def pyTruthyStr (s : String) : Bool := !s.toList.isEmpty

/-- Calendar date as produced by `datetime.strptime` (midnight, no tz). -/
structure Date where
  year : Nat
  month : Nat
  day : Nat
deriving DecidableEq, Repr

/-- Numeric value of a decimal digit character. -/
def digitVal (c : Char) : Nat := c.toNat - 48

/-- Reads one or two digits whose value lies in `[lo, hi]`, preferring two
digits, as the CPython `_strptime` regexes for `%m` (`1[0-2]|0[1-9]|[1-9]`)
and `%d` (`3[01]|[12]\d|0[1-9]|[1-9]`) do. -/
def parseNum2 (lo hi : Nat) : List Char → Option (Nat × List Char)
  | [] => none
  | [c] =>
    if c.isDigit then
      if lo ≤ digitVal c && digitVal c ≤ hi then some (digitVal c, []) else none
    else none
  | c1 :: c2 :: rest =>
    if c1.isDigit then
      if c2.isDigit then
        let v2 := digitVal c1 * 10 + digitVal c2
        if lo ≤ v2 && v2 ≤ hi then some (v2, rest)
        else if lo ≤ digitVal c1 && digitVal c1 ≤ hi then some (digitVal c1, c2 :: rest)
        else none
      else
        if lo ≤ digitVal c1 && digitVal c1 ≤ hi then some (digitVal c1, c2 :: rest) else none
    else none

/-- Reads exactly four digits, as CPython `%Y` (`\d\d\d\d`) does. -/
def parseYear4 : List Char → Option (Nat × List Char)
  | a :: b :: c :: d :: rest =>
    if a.isDigit && b.isDigit && c.isDigit && d.isDigit then
      some ((((digitVal a * 10 + digitVal b) * 10 + digitVal c) * 10 + digitVal d), rest)
    else none
  | _ => none

/-- Reads exactly two digits and applies CPython's `%y` century rule:
values up to 68 map to 20xx, the rest to 19xx. -/
def parseYear2 : List Char → Option (Nat × List Char)
  | a :: b :: rest =>
    if a.isDigit && b.isDigit then
      let v := digitVal a * 10 + digitVal b
      some ((if v ≤ 68 then 2000 + v else 1900 + v), rest)
    else none
  | _ => none

/-- English month abbreviations recognised by `%b` (en locale). -/
def monthAbbrevs : List String :=
  ["jan", "feb", "mar", "apr", "may", "jun", "jul", "aug", "sep", "oct", "nov", "dec"]

/-- Reads a three-letter month abbreviation, case-insensitively (`%b`). -/
def parseMonthAbbrev : List Char → Option (Nat × List Char)
  | a :: b :: c :: rest =>
    let w := String.mk [a.toLower, b.toLower, c.toLower]
    match monthAbbrevs.findIdx? (fun m => m == w) with
    | some i => some (i + 1, rest)
    | none => none
  | _ => none

/-- Matches one literal character of the format string. -/
def parseLit (c : Char) : List Char → Option (List Char)
  | x :: rest => if x = c then some rest else none
  | [] => none

/-- Matches one-or-more whitespace characters: CPython rewrites whitespace
in the format string to the regex `\s+`. -/
def parseWs : List Char → Option (List Char)
  | x :: rest => if x.isWhitespace then some (rest.dropWhile Char.isWhitespace) else none
  | [] => none

/-- Gregorian leap-year rule used by `datetime`. -/
def isLeapYear (y : Nat) : Bool := y % 4 = 0 && (y % 100 ≠ 0 || y % 400 = 0)

/-- Length of a month, as validated by the `datetime` constructor. -/
def daysInMonth (y m : Nat) : Nat :=
  if m = 2 then (if isLeapYear y then 29 else 28)
  else if [1, 3, 5, 7, 8, 10, 12].contains m then 31
  else 30

/-- Builds a `Date` subject to the `datetime` constructor's range checks
(`MINYEAR = 1`, day bounded by the month length); out-of-range components
raise `ValueError` in Python, i.e. yield `none` here. -/
def mkValidDate (y m d : Nat) : Option Date :=
  if 1 ≤ y && y ≤ 9999 && 1 ≤ m && m ≤ 12 && 1 ≤ d && d ≤ daysInMonth y m then
    some ⟨y, m, d⟩
  else none

/-- Full-string parse with format `"%m/%d/%Y"`. -/
def fmtMDYslash (cs : List Char) : Option Date := do
  let (m, cs) ← parseNum2 1 12 cs
  let cs ← parseLit '/' cs
  let (d, cs) ← parseNum2 1 31 cs
  let cs ← parseLit '/' cs
  let (y, cs) ← parseYear4 cs
  if cs.isEmpty then mkValidDate y m d else none

/-- Full-string parse with format `"%Y-%m-%d"`. -/
def fmtYMDdash (cs : List Char) : Option Date := do
  let (y, cs) ← parseYear4 cs
  let cs ← parseLit '-' cs
  let (m, cs) ← parseNum2 1 12 cs
  let cs ← parseLit '-' cs
  let (d, cs) ← parseNum2 1 31 cs
  if cs.isEmpty then mkValidDate y m d else none

/-- Full-string parse with format `"%b %d, %Y"`. -/
def fmtBDY (cs : List Char) : Option Date := do
  let (m, cs) ← parseMonthAbbrev cs
  let cs ← parseWs cs
  let (d, cs) ← parseNum2 1 31 cs
  let cs ← parseLit ',' cs
  let cs ← parseWs cs
  let (y, cs) ← parseYear4 cs
  if cs.isEmpty then mkValidDate y m d else none

/-- Full-string parse with format `"%m-%d-%Y"`. -/
def fmtMDYdashes (cs : List Char) : Option Date := do
  let (m, cs) ← parseNum2 1 12 cs
  let cs ← parseLit '-' cs
  let (d, cs) ← parseNum2 1 31 cs
  let cs ← parseLit '-' cs
  let (y, cs) ← parseYear4 cs
  if cs.isEmpty then mkValidDate y m d else none

/-- Full-string parse with format `"%m/%d/%y"`. -/
def fmtMDYshort (cs : List Char) : Option Date := do
  let (m, cs) ← parseNum2 1 12 cs
  let cs ← parseLit '/' cs
  let (d, cs) ← parseNum2 1 31 cs
  let cs ← parseLit '/' cs
  let (y, cs) ← parseYear2 cs
  if cs.isEmpty then mkValidDate y m d else none

/-- The ordered format list
`["%m/%d/%Y", "%Y-%m-%d", "%b %d, %Y", "%m-%d-%Y", "%m/%d/%y"]` tried by
the scrapers; the first format that parses without error wins
(`configured_server.py` lines 229 and 280 and 441). -/
def strptimeFormats : List (List Char → Option Date) :=
  [fmtMDYslash, fmtYMDdash, fmtBDY, fmtMDYdashes, fmtMDYshort]

/-- First-success loop over `strptimeFormats`. -/
def parseDateFormats (s : String) : Option Date :=
  strptimeFormats.findSome? (fun f => f s.toList)

/-- The scrapers' date-text handling: Python truthiness guard
(`if date_text:`) followed by `strptime(date_text.strip(), fmt)` over the
format list; yields `none` when the text is empty or no format parses. -/
def pyParseDateText (t : String) : Option Date :=
  if pyTruthyStr t then parseDateFormats (pyStrip t) else none

/-- Days before the first of a month within a year. -/
def daysBeforeMonth (y m : Nat) : Nat :=
  ([0, 31, 59, 90, 120, 151, 181, 212, 243, 273, 304, 334].getD (m - 1) 0)
  + (if 3 ≤ m && isLeapYear y then 1 else 0)

/-- Rata Die day number of a date (proleptic Gregorian). -/
def rataDie (dt : Date) : Nat :=
  365 * (dt.year - 1) + (dt.year - 1) / 4 - (dt.year - 1) / 100 + (dt.year - 1) / 400
  + daysBeforeMonth dt.year dt.month + dt.day

/-- Order-embedding of a parsed date (midnight) into integer seconds;
`datetime` comparison and `timedelta(days=n)` subtraction become integer
comparison and subtraction of `n * 86400`. -/
def dateInstant (dt : Date) : Int := (rataDie dt : Int) * 86400

/-- Number of digits of `ds` read as a decimal numeral. -/
def natOfDigits (ds : List Char) : Nat := ds.foldl (fun a c => a * 10 + digitVal c) 0

/-- Leftmost match of the regex `\d+\.?\d*` used on grade text
(`re.findall(...)[0]`, `configured_server.py` line 431): the integer
digits together with the fractional digits when a dot follows. -/
def firstDigitRun : List Char → Option (List Char × Option (List Char))
  | [] => none
  | c :: rest =>
    if c.isDigit then
      let ds := (c :: rest).takeWhile Char.isDigit
      match (c :: rest).dropWhile Char.isDigit with
      | '.' :: rem => some (ds, some (rem.takeWhile Char.isDigit))
      | _ => some (ds, none)
    else firstDigitRun rest

/-- Grade-percent extraction: first number pattern in the grade text,
converted with `float(...)`; no digits (e.g. `"B+"`) or empty text give
an absent percentage. -/
def parseGradePercent (s : String) : Option Rat :=
  (firstDigitRun s.toList).map (fun p =>
    let ip : Rat := (natOfDigits p.1 : Rat)
    match p.2 with
    | none => ip
    | some fs => ip + (natOfDigits fs : Rat) / ((10 : Rat) ^ fs.length))

/-- Python `str.replace("_", " ")` for the single-character pattern. -/
def underscoresToSpaces (s : String) : String :=
  String.mk (s.toList.map (fun c => if c = '_' then ' ' else c))

/-- Worker for `pythonTitle`; the flag records whether the previous
character was alphabetic (cased). -/
def pythonTitleAux : Bool → List Char → List Char
  | _, [] => []
  | prevCased, c :: rest =>
    if c.isAlpha then
      (if prevCased then c.toLower else c.toUpper) :: pythonTitleAux true rest
    else c :: pythonTitleAux false rest

/-- Python `str.title()`: first letter of every alphabetic run uppercased,
the rest lowercased. -/
def pythonTitle (s : String) : String := String.mk (pythonTitleAux false s.toList)

/-- Contiguous-sublist test, modelling Python's `needle in haystack` on
strings. -/
def isSubstring (needle : List Char) : List Char → Bool
  | [] => needle.isEmpty
  | c :: rest => needle.isPrefixOf (c :: rest) || isSubstring needle rest

/-- Python truthiness of an optional string (`None` and `""` are falsy). -/
def strTruthy : Option String → Bool
  | none => false
  | some s => pyTruthyStr s

/-- The `Assignment` pydantic model; the scrapers always construct it with
`status="missing"` and never set points or link. -/
structure Assignment where
  title : String
  course : String
  due_date : Option Date
  status : String
  points_possible : Option Rat
  points_earned : Option Rat
  link : Option String
deriving DecidableEq, Repr

/-- The `GradeSample` pydantic model; `date` is a mandatory `datetime`,
modelled as an integer instant (see `dateInstant`). -/
structure GradeSample where
  course : String
  date : Int
  grade_percent : Option Rat
deriving DecidableEq, Repr

/-- Sub-elements of one assignment card (`configured_server.py` lines
212-223): each field is the inner text of the first matching sub-locator,
or `none` when no sub-element matches. -/
structure CardInfo where
  title : Option String
  course : Option String
  status : Option String
  dueDateText : Option String
deriving DecidableEq, Repr

/-- A loaded portal page, as the scrapers observe it: the set of selector
queries that match at least one element (`locator(sel).count() > 0`), the
`td` texts of each `tr` row of the first data table found, and the card
sub-element texts for card layouts. -/
structure PageContent where
  present : List String
  tableRows : List (List String)
  cards : List CardInfo
deriving DecidableEq, Repr

/-- Whether selector `s` matches at least one element on page `p`. -/
def hasSel (p : PageContent) (s : String) : Bool := p.present.contains s

/-- Table selector candidates for assignments (`configured_server.py`
lines 181-188). -/
def assignmentTableSelectors : List String :=
  ["table", ".assignment-table", ".data-table", ".table", "[role=\x27table\x27]", ".ic-table"]

/-- Card selector candidates for assignments (`configured_server.py`
lines 200-205). -/
def assignmentCardSelectors : List String :=
  [".assignment-card", ".assignment-item", ".card", "[data-testid*=\x27assignment\x27]"]

/-- Table selector candidates for grades (`configured_server.py`
lines 389-396). -/
def gradeTableSelectors : List String :=
  ["table", ".grade-table", ".data-table", ".table", "[role=\x27table\x27]", ".ic-table"]

/-- Retention test of the assignment recency filter
(`if due_date is None or due_date >= cutoff_date`, lines 238 and 289). -/
def keepByDue (due : Option Date) (cutoff : Int) : Bool :=
  match due with
  | none => true
  | some d => decide (cutoff ≤ dateInstant d)

/-- One table row of the missing-assignments table (`configured_server.py`
lines 259-297): rows with fewer than three cells are skipped; fields are
read by position, the due date parsed over the format list, and the row
retained by `keepByDue`. -/
def processAssignmentRow (cutoff : Int) (cells : List String) : Option Assignment :=
  if cells.length < 3 then none
  else
    let title := cells.getD 0 ""
    let course := cells.getD 1 ""
    let dueText := cells.getD 2 ""
    let due := pyParseDateText dueText
    if keepByDue due cutoff then
      some ⟨pyStrip title, pyStrip course, due, "missing", none, none, none⟩
    else none

/-- Due date of a card: absent sub-element stays `None`, otherwise the
text goes through the same truthiness guard and format loop. -/
def cardDue (c : CardInfo) : Option Date :=
  match c.dueDateText with
  | none => none
  | some t => pyParseDateText t

/-- One assignment card (`configured_server.py` lines 212-246): absent
sub-elements default to `"Assignment {i+1}"` and `"Unknown"`; same date
parsing and recency filter as the table path. -/
def processAssignmentCard (cutoff : Int) (i : Nat) (c : CardInfo) : Option Assignment :=
  let title := c.title.getD ("Assignment " ++ toString (i + 1))
  let course := c.course.getD "Unknown"
  let due := cardDue c
  if keepByDue due cutoff then
    some ⟨pyStrip title, pyStrip course, due, "missing", none, none, none⟩
  else none

/-- `scrape_missing_assignments` of `configured_server.py` (lines
163-310), over a loaded page: probe the table selectors, else the card
selectors, else return no assignments; the header row (index 0) of a
table is skipped; `cutoff_date = now - timedelta(days=since_days)`. -/
def scrapeMissingAssignments (p : PageContent) (now sinceDays : Int) : List Assignment :=
  let cutoff := now - sinceDays * 86400
  match assignmentTableSelectors.find? (hasSel p) with
  | some _ => p.tableRows.tail.filterMap (processAssignmentRow cutoff)
  | none =>
    match assignmentCardSelectors.find? (hasSel p) with
    | some _ => p.cards.enum.filterMap (fun ic => processAssignmentCard cutoff ic.1 ic.2)
    | none => []

/-- Date assigned to a grade row (`configured_server.py` lines 437-448):
`datetime.now()` unless the date cell parses under some format. -/
def gradeRowDate (now : Int) (cells : List String) : Int :=
  match pyParseDateText (cells.getD 1 "") with
  | some d => dateInstant d
  | none => now

/-- The `GradeSample` built from one grade row (lines 452-456): the course
field is the canonical course key with underscores replaced by spaces and
title-cased, never the on-page course text. -/
def gradeRowSample (courseName : String) (now : Int) (cells : List String) : GradeSample :=
  ⟨pythonTitle (underscoresToSpaces courseName), gradeRowDate now cells,
    parseGradePercent (cells.getD 0 "")⟩

/-- One grade table row (lines 410-458): rows with fewer than two cells
are skipped, and only rows with `grade_date >= cutoff_date` are kept. -/
def processGradeRow (courseName : String) (cutoff now : Int) (cells : List String) :
    Option GradeSample :=
  if cells.length < 2 then none
  else if cutoff ≤ gradeRowDate now cells then some (gradeRowSample courseName now cells)
  else none

/-- `extract_grades_from_page` of `configured_server.py` (lines 383-467):
probe the grade table selectors; without a table no grades are produced;
the header row of a found table is skipped. -/
def extractGradesFromPage (p : PageContent) (courseName : String) (cutoff now : Int) :
    List GradeSample :=
  match gradeTableSelectors.find? (hasSel p) with
  | some _ => p.tableRows.tail.filterMap (processGradeRow courseName cutoff now)
  | none => []

/-- The static alias table `course_mapping` (`configured_server.py` lines
322-334), in its literal (dict insertion) order. -/
def courseMapping : List (String × String) :=
  [("individuals", "individuals_and_societies"),
   ("societies", "individuals_and_societies"),
   ("lang", "lang_lit"),
   ("lit", "lang_lit"),
   ("language", "lang_lit"),
   ("literature", "lang_lit"),
   ("science", "science"),
   ("spanish", "spanish_2"),
   ("math", "pre_algebra"),
   ("algebra", "pre_algebra"),
   ("pre-algebra", "pre_algebra")]

/-- Alias resolution loop (lines 336-341): scan `course_mapping` in listed
order and take the first key whose lowercase form is a substring of the
lowercased filter text (`if key.lower() in course_filter.lower()`). -/
def resolveCourseKey (filter : String) : Option String :=
  (courseMapping.find? (fun kv =>
    isSubstring (pyLower kv.1).toList (pyLower filter).toList)).map (fun kv => kv.2)

/-- The aggregate grades overview URL (`INFINITE_CAMPUS_URLS["grades_overview"]`). -/
def gradesOverviewUrl : String :=
  "https://academy20co.infinitecampus.org/campus/nav-wrapper/parent/portal/parent/grades?appName=academy20"

/-- The missing-assignments URL (`INFINITE_CAMPUS_URLS["assignments_missing"]`). -/
def assignmentsMissingUrl : String :=
  "https://academy20co.infinitecampus.org/campus/nav-wrapper/parent/portal/parent/assignment-list?missingFilter=true&appName=academy20"

/-- Dedicated per-course page of the pre-algebra class. -/
def preAlgebraUrl : String :=
  "https://academy20co.infinitecampus.org/campus/nav-wrapper/parent/portal/parent/classroom/grades/student-grades?showAllTerms=false&selectedTermID=4928&classroomSectionID=2203700&appName=academy20"

/-- The `INFINITE_CAMPUS_URLS["classes"]` dict: canonical course key to
dedicated per-course page URL. -/
def classUrls : List (String × String) :=
  [("individuals_and_societies",
    "https://academy20co.infinitecampus.org/campus/nav-wrapper/parent/portal/parent/classroom/grades/student-grades?showAllTerms=false&selectedTermID=4928&classroomSectionID=2203804&appName=academy20"),
   ("lang_lit",
    "https://academy20co.infinitecampus.org/campus/nav-wrapper/parent/portal/parent/classroom/grades/student-grades?showAllTerms=false&selectedTermID=4928&classroomSectionID=2203759&appName=academy20"),
   ("science",
    "https://academy20co.infinitecampus.org/campus/nav-wrapper/parent/portal/parent/classroom/grades/student-grades?showAllTerms=false&selectedTermID=4928&classroomSectionID=2203787&appName=academy20"),
   ("spanish_2",
    "https://academy20co.infinitecampus.org/campus/nav-wrapper/parent/portal/parent/classroom/grades/student-grades?showAllTerms=false&selectedTermID=4928&classroomSectionID=2203715&appName=academy20"),
   ("pre_algebra", preAlgebraUrl)]

/-- Membership lookup `course_key in INFINITE_CAMPUS_URLS["classes"]`
together with the URL read on success. -/
def classUrlOf (key : String) : Option String :=
  (classUrls.find? (fun kv => kv.1 == key)).map (fun kv => kv.2)

/-- The portal world a tool call runs against: the clock, its ISO
rendering, credential presence, and the loaded content of each page by
URL (`assignmentsPage` is the page behind `assignmentsMissingUrl`). -/
structure World where
  now : Int
  nowIso : String
  credsConfigured : Bool
  assignmentsPage : PageContent
  pageAt : String → PageContent

/-- URL that `scrape_course_grades` (lines 312-381) navigates to:
the resolved per-course page for a truthy filter that resolves through
the alias table, the overview page when no (truthy) filter is given, and
none at all for a truthy filter that does not resolve — despite the
`Fall through to get all grades` comment, that branch navigates nowhere. -/
def courseGradesTarget (filter : Option String) : Option String :=
  if strTruthy filter then
    match resolveCourseKey (filter.getD "") with
    | some key =>
      match classUrlOf key with
      | some url => some url
      | none => none
    | none => none
  else some gradesOverviewUrl

/-- `scrape_course_grades` of `configured_server.py` (lines 312-381):
resolve the filter, scrape the resolved per-course page (course name =
canonical key) or the overview page (course name `"overview"`); an
unresolved truthy filter returns the still-empty `grades` list. -/
def scrapeCourseGrades (w : World) (filter : Option String) (now sinceDays : Int) :
    List GradeSample :=
  let cutoff := now - sinceDays * 86400
  if strTruthy filter then
    match resolveCourseKey (filter.getD "") with
    | some key =>
      match classUrlOf key with
      | some url => extractGradesFromPage (w.pageAt url) key cutoff now
      | none => []
    | none => []
  else extractGradesFromPage (w.pageAt gradesOverviewUrl) "overview" cutoff now

/-- Configuration defaults of `configured_server.py` lines 24-35 with no
environment overrides set. -/
def PORTAL_BASE_URL : String := "https://portal.example.edu"

/-- Default login path suffix. -/
def LOGIN_PATH : String := "/login"

/-- Login URL constructed from the base URL and path. -/
def FULL_LOGIN_URL : String := PORTAL_BASE_URL ++ LOGIN_PATH

/-- Default session-state file path. -/
def STATE_PATH : String := "./state.json"

/-- Keys of `INFINITE_CAMPUS_URLS`, echoed by the health tool. -/
def configuredUrlKeys : List String :=
  ["grades_overview", "assignments_all", "assignments_missing", "classes"]

/-- The `ToolRequest` model: tool name plus the `arguments` dict keys the
dispatcher reads (`course`, `since_days`). -/
structure ToolRequest where
  tool : String
  course : Option String
  since_days : Option Int
deriving DecidableEq, Repr

/-- Payload of the health tool (`configured_server.py` lines 526-533). -/
structure HealthInfo where
  time : String
  base_url : String
  login_url : String
  state_file : String
  credentials_configured : Bool
  configured_urls : List String
deriving DecidableEq, Repr

/-- The `data` payloads the configured dispatcher can produce. -/
inductive ToolData where
  | assignments : Nat → List Assignment → ToolData
  | grades : Option String → List GradeSample → ToolData
  | health : HealthInfo → ToolData
deriving DecidableEq, Repr

/-- The `ToolResponse` envelope `{success, data, error}`. -/
structure ToolResponse where
  success : Bool
  data : Option ToolData
  error : Option String
deriving DecidableEq, Repr

/-- `call_tool` of `configured_server.py` (lines 491-541): dispatch on the
tool name; the scraping pipeline of the matching tool produces the data
payload; any other name yields the `Unknown tool` failure envelope. -/
def callTool (w : World) (req : ToolRequest) : ToolResponse :=
  if req.tool = "check_missing_assignments" then
    let sd := req.since_days.getD 14
    let items := scrapeMissingAssignments w.assignmentsPage w.now sd
    ⟨true, some (ToolData.assignments items.length items), none⟩
  else if req.tool = "get_course_grades" then
    let sd := req.since_days.getD 14
    let items := scrapeCourseGrades w req.course w.now sd
    ⟨true, some (ToolData.grades req.course items), none⟩
  else if req.tool = "health" then
    ⟨true, some (ToolData.health
      ⟨w.nowIso, PORTAL_BASE_URL, FULL_LOGIN_URL, STATE_PATH, w.credsConfigured,
        configuredUrlKeys⟩), none⟩
  else ⟨false, none, some ("Unknown tool: " ++ req.tool)⟩

/-- Concatenation of per-card result lists (the nested loops of
`server.py`'s grade scraper). -/
def flattenAll {α : Type} : List (List α) → List α
  | [] => []
  | x :: xs => x ++ flattenAll xs

/-- Python `str.startswith` on ASCII text. -/
def pyStartsWith (pre s : String) : Bool := pre.toList.isPrefixOf s.toList

/-- Python `str.replace("%", "")`: removes every percent sign. -/
def removePercent (s : String) : String :=
  String.mk (s.toList.filter (fun c => c ≠ '%'))

/-- Python `float(...)` on stripped grade text, modelled for finite
decimal literals (optional sign, digits, optional fractional part); the
`ValueError` of any other text is the `none` that `server.py` turns into
an absent percentage.  Exponent, infinity and NaN forms never appear in
this data and are not modelled. -/
def pyFloatOpt (s : String) : Option Rat :=
  let cs := s.toList
  let signed : Int × List Char :=
    match cs with
    | '-' :: r => (-1, r)
    | '+' :: r => (1, r)
    | r => (1, r)
  let ds := signed.2.takeWhile Char.isDigit
  match signed.2.dropWhile Char.isDigit with
  | [] => if ds.isEmpty then none else some ((signed.1 : Rat) * (natOfDigits ds : Rat))
  | '.' :: rest =>
    let fs := rest.takeWhile Char.isDigit
    if (rest.dropWhile Char.isDigit).isEmpty && !(ds.isEmpty && fs.isEmpty) then
      some ((signed.1 : Rat) *
        ((natOfDigits ds : Rat) + (natOfDigits fs : Rat) / ((10 : Rat) ^ fs.length)))
    else none
  | _ => none

/-- One `.assignment-row` element of `server.py`'s assignments page
(lines 107-113): inner text of each sub-locator, `none` when absent. -/
structure ServerAssignmentRow where
  title : Option String
  course : Option String
  status : Option String
  dueText : Option String
deriving DecidableEq, Repr

/-- `scrape_missing_assignments` of `src/server.py` (lines 99-125):
defaults `"Unknown"`/`"unknown"`, single date format `"%b %d, %Y"` with
no strip, rows kept when the status text starts with `missing` and the
due date is absent or on/after the cutoff. -/
def serverScrapeMissingAssignments (rows : List ServerAssignmentRow) (now sinceDays : Int) :
    List Assignment :=
  let cutoff := now - sinceDays * 86400
  rows.filterMap (fun r =>
    let title := r.title.getD "Unknown"
    let course := r.course.getD "Unknown"
    let status := r.status.getD "unknown"
    let due : Option Date :=
      match r.dueText with
      | none => none
      | some t => if pyTruthyStr t then fmtBDY t.toList else none
    if pyStartsWith "missing" (pyLower status) then
      if keepByDue due cutoff then some ⟨title, course, due, "missing", none, none, none⟩
      else none
    else none)

/-- One `.course-card` element of `server.py`'s grades page (lines
134-147): the course name text and the `(date_txt, grade_txt)` cell pairs
of its grade-history rows. -/
structure ServerCourseCard where
  name : Option String
  history : List (String × String)
deriving DecidableEq, Repr

/-- `scrape_course_grades` of `src/server.py` (lines 127-161): cards are
skipped unless the (truthy) filter text is a case-insensitive substring
of the course name; history rows parse under the single format
`"%b %d, %Y"`, unparsable or pre-cutoff rows are skipped, and the percent
comes from `float(grade_txt.replace("%", "").strip())` or is absent. -/
def serverScrapeCourseGrades (cards : List ServerCourseCard) (filter : Option String)
    (now sinceDays : Int) : List GradeSample :=
  let cutoff := now - sinceDays * 86400
  flattenAll (cards.map (fun card =>
    let course := card.name.getD "Unknown"
    if strTruthy filter
        && !(isSubstring (pyLower (filter.getD "")).toList (pyLower course).toList) then []
    else card.history.filterMap (fun dg =>
      match fmtBDY dg.1.toList with
      | none => none
      | some d =>
        if dateInstant d < cutoff then none
        else some ⟨course, dateInstant d, pyFloatOpt (pyStrip (removePercent dg.2))⟩)))

/-- Payload of `server.py`'s health branch (five fields, no URL list). -/
structure ServerHealthInfo where
  time : String
  base_url : String
  login_url : String
  state_file : String
  credentials_configured : Bool
deriving DecidableEq, Repr

/-- Result value of the stdio dispatcher, before JSON serialisation into
`TextContent`. -/
inductive McpResult where
  | assignments : Nat → List Assignment → McpResult
  | grades : Option String → List GradeSample → McpResult
  | health : ServerHealthInfo → McpResult
deriving DecidableEq, Repr

/-- The world of the stdio server: clock, health inputs and the contents
of its two scraped pages. -/
structure StdioWorld where
  now : Int
  nowIso : String
  credsConfigured : Bool
  assignmentRows : List ServerAssignmentRow
  courseCards : List ServerCourseCard
deriving DecidableEq, Repr

/-- Arguments dict of a stdio tool call (keys the handler reads). -/
structure ToolArgs where
  course : Option String
  since_days : Option Int
deriving DecidableEq, Repr

/-- `handle_call_tool` of `src/server.py` (lines 213-257): dispatch on
the tool name; an unknown name does not return a result but raises
`ValueError(f"Unknown tool: {name}")` — modelled as `Except.error`, the
exception escaping to the transport layer. -/
def handleCallTool (w : StdioWorld) (name : String) (args : ToolArgs) :
    Except String McpResult :=
  if name = "check_missing_assignments" then
    let sd := args.since_days.getD 14
    let items := serverScrapeMissingAssignments w.assignmentRows w.now sd
    Except.ok (McpResult.assignments items.length items)
  else if name = "get_course_grades" then
    let sd := args.since_days.getD 14
    let items := serverScrapeCourseGrades w.courseCards args.course w.now sd
    Except.ok (McpResult.grades args.course items)
  else if name = "health" then
    Except.ok (McpResult.health
      ⟨w.nowIso, PORTAL_BASE_URL, FULL_LOGIN_URL, STATE_PATH, w.credsConfigured⟩)
  else Except.error ("Unknown tool: " ++ name)

/-- Logged-in indicators probed by `improved_server.py`'s `ensure_login`
(lines 104-112). -/
def improvedLoggedInIndicators : List String :=
  ["text=Logout", "text=Sign Out", "text=Welcome", "text=Dashboard",
   "[data-testid=\x27logout\x27]", ".logout-button", "a[href*=\x27logout\x27]"]

/-- Username field candidate selectors (`improved_server.py` lines
134-142). -/
def usernameSelectors : List String :=
  ["input[name=\x27loginfmt\x27]", "input[name=\x27username\x27]", "input[type=\x27email\x27]",
   "input[placeholder*=\x27email\x27]", "input[placeholder*=\x27user\x27]", "#i0116",
   "#userNameInput"]

/-- Password field candidate selectors (lines 144-150). -/
def passwordSelectors : List String :=
  ["input[name=\x27passwd\x27]", "input[name=\x27password\x27]", "input[type=\x27password\x27]",
   "#i0118", "#passwordInput"]

/-- Post-login success indicators (lines 247-256). -/
def improvedSuccessIndicators : List String :=
  ["text=Logout", "text=Sign Out", "text=Welcome", "text=Dashboard", "text=Grades",
   "text=Assignments", "[data-testid=\x27logout\x27]", ".logout-button"]

/-- Terminal states of `ensure_login`; the function itself returns `None`
in Python on every path (its whole body sits in a `try`/`except` that
only logs), so the outcome is observable only through the session. -/
inductive LoginOutcome where
  | alreadyLoggedIn
  | abortedNoUsername
  | abortedNoPassword
  | attempted : Bool → LoginOutcome
deriving DecidableEq, Repr

/-- `ensure_login` of `src/improved_server.py` (lines 93-286) over the
page states it traverses (portal page, password page, post-login page):
short-circuit when a logged-in indicator is present; abort — without
raising and without persisting any session state — when no username
field (resp. password field) selector matches; otherwise run the full
flow and persist the session state unconditionally, recording whether a
success indicator was found.  The second component is `true` exactly
when `context.storage_state(path=STATE_PATH)` ran. -/
def ensureLogin (loginPage pwPage postPage : PageContent) : LoginOutcome × Bool :=
  if improvedLoggedInIndicators.any (hasSel loginPage) then
    (LoginOutcome.alreadyLoggedIn, false)
  else
    match usernameSelectors.find? (hasSel loginPage) with
    | none => (LoginOutcome.abortedNoUsername, false)
    | some _ =>
      match passwordSelectors.find? (hasSel pwPage) with
      | none => (LoginOutcome.abortedNoPassword, false)
      | some _ =>
        (LoginOutcome.attempted (improvedSuccessIndicators.any (hasSel postPage)), true)

/-- Observable state of the session file on disk: whether
`os.path.exists(STATE_PATH)` holds, and whether the file's content is a
valid storage-state blob (the code never inspects the latter). -/
structure StateFileStatus where
  onDisk : Bool
  valid : Bool
deriving DecidableEq, Repr

/-- The one observable of the created browser context: the
`storage_state` argument it was constructed with. -/
structure ContextModel where
  storageState : Option String
deriving DecidableEq, Repr

/-- `get_context` (`configured_server.py` lines 91-103 and `server.py`
lines 56-60): the context is hydrated from `STATE_PATH` exactly when the
file exists (`storage_state=STATE_PATH if os.path.exists(STATE_PATH)
else None`); the content of the file is never examined. -/
def getContext (fs : StateFileStatus) : ContextModel :=
  ⟨if fs.onDisk then some STATE_PATH else none⟩

set_option maxRecDepth 40000

theorem due_of_keep (due : Option Date) (cutoff : Int) (h : keepByDue due cutoff = true) :
    due = none ∨ ∃ d, due = some d ∧ cutoff ≤ dateInstant d := by
  cases due with
  | none => exact Or.inl rfl
  | some d => exact Or.inr ⟨d, rfl, of_decide_eq_true h⟩

theorem due_of_processAssignmentRow (cutoff : Int) (cells : List String) (a : Assignment)
    (h : processAssignmentRow cutoff cells = some a) :
    a.due_date = none ∨ ∃ d, a.due_date = some d ∧ cutoff ≤ dateInstant d := by
  unfold processAssignmentRow at h
  by_cases hlen : cells.length < 3
  · rw [if_pos hlen] at h
    exact absurd h (by simp)
  · rw [if_neg hlen] at h
    dsimp only at h
    by_cases hk : keepByDue (pyParseDateText (cells.getD 2 "")) cutoff = true
    · rw [if_pos hk] at h
      cases h
      exact due_of_keep _ _ hk
    · rw [if_neg hk] at h
      exact absurd h (by simp)

theorem due_of_processAssignmentCard (cutoff : Int) (i : Nat) (c : CardInfo) (a : Assignment)
    (h : processAssignmentCard cutoff i c = some a) :
    a.due_date = none ∨ ∃ d, a.due_date = some d ∧ cutoff ≤ dateInstant d := by
  unfold processAssignmentCard at h
  dsimp only at h
  by_cases hk : keepByDue (cardDue c) cutoff = true
  · rw [if_pos hk] at h
    cases h
    exact due_of_keep _ _ hk
  · rw [if_neg hk] at h
    exact absurd h (by simp)

theorem due_of_scrapeMissingAssignments (p : PageContent) (now sd : Int) (a : Assignment)
    (h : a ∈ scrapeMissingAssignments p now sd) :
    a.due_date = none ∨ ∃ d, a.due_date = some d ∧ now - sd * 86400 ≤ dateInstant d := by
  unfold scrapeMissingAssignments at h
  split at h
  · obtain ⟨cells, -, hc⟩ := List.mem_filterMap.mp h
    exact due_of_processAssignmentRow _ _ _ hc
  · split at h
    · obtain ⟨ic, -, hc⟩ := List.mem_filterMap.mp h
      exact due_of_processAssignmentCard _ _ _ _ hc
    · exact absurd h (by simp)

theorem grade_of_processGradeRow (cname : String) (cutoff now : Int) (cells : List String)
    (g : GradeSample) (h : processGradeRow cname cutoff now cells = some g) :
    cutoff ≤ g.date ∧ g.course = pythonTitle (underscoresToSpaces cname) := by
  unfold processGradeRow at h
  by_cases hlen : cells.length < 2
  · rw [if_pos hlen] at h
    exact absurd h (by simp)
  · rw [if_neg hlen] at h
    by_cases hle : cutoff ≤ gradeRowDate now cells
    · rw [if_pos hle] at h
      cases h
      exact ⟨hle, rfl⟩
    · rw [if_neg hle] at h
      exact absurd h (by simp)

theorem grade_of_extractGradesFromPage (p : PageContent) (cname : String) (cutoff now : Int)
    (g : GradeSample) (h : g ∈ extractGradesFromPage p cname cutoff now) :
    cutoff ≤ g.date ∧ g.course = pythonTitle (underscoresToSpaces cname) := by
  unfold extractGradesFromPage at h
  split at h
  · obtain ⟨cells, -, hc⟩ := List.mem_filterMap.mp h
    exact grade_of_processGradeRow _ _ _ _ _ hc
  · exact absurd h (by simp)

theorem grade_of_scrapeCourseGrades (w : World) (f : Option String) (now sd : Int)
    (g : GradeSample) (h : g ∈ scrapeCourseGrades w f now sd) :
    now - sd * 86400 ≤ g.date := by
  unfold scrapeCourseGrades at h
  split at h
  · split at h
    · split at h
      · exact (grade_of_extractGradesFromPage _ _ _ _ _ h).1
      · exact absurd h (by simp)
    · exact absurd h (by simp)
  · exact (grade_of_extractGradesFromPage _ _ _ _ _ h).1

theorem callTool_assignments_eq (w : World) (req : ToolRequest) (n : Nat)
    (items : List Assignment)
    (h : (callTool w req).data = some (ToolData.assignments n items)) :
    items = scrapeMissingAssignments w.assignmentsPage w.now (req.since_days.getD 14) := by
  unfold callTool at h
  split_ifs at h
  · dsimp only at h
    simp only [Option.some.injEq, ToolData.assignments.injEq] at h
    exact h.2.symm
  · exact absurd h (by simp)
  · exact absurd h (by simp)

theorem callTool_grades_eq (w : World) (req : ToolRequest) (cf : Option String)
    (items : List GradeSample)
    (h : (callTool w req).data = some (ToolData.grades cf items)) :
    items = scrapeCourseGrades w req.course w.now (req.since_days.getD 14) := by
  unfold callTool at h
  split_ifs at h
  · exact absurd h (by simp)
  · dsimp only at h
    simp only [Option.some.injEq, ToolData.grades.injEq] at h
    exact h.2.symm
  · exact absurd h (by simp)

/-- Claim C1: for every `since_days ≥ 0`, every Assignment in the data of
a `check_missing_assignments` dispatch has an absent `due_date` or one on
or after `now - since_days`, and every GradeSample in the data of a
`get_course_grades` dispatch has a `date` (always present, the field is
mandatory) on or after `now - since_days`. -/
theorem tool_results_respect_recency_window
    (w1 w2 : World) (req1 req2 : ToolRequest)
    (n : Nat) (aItems : List Assignment) (a : Assignment)
    (cf : Option String) (gItems : List GradeSample) (g : GradeSample)
    (_h1 : 0 ≤ req1.since_days.getD 14) (_h2 : 0 ≤ req2.since_days.getD 14)
    (hA : (callTool w1 req1).data = some (ToolData.assignments n aItems)) (ha : a ∈ aItems)
    (hG : (callTool w2 req2).data = some (ToolData.grades cf gItems)) (hg : g ∈ gItems) :
    (a.due_date = none ∨ ∃ d, a.due_date = some d ∧
        w1.now - req1.since_days.getD 14 * 86400 ≤ dateInstant d)
    ∧ w2.now - req2.since_days.getD 14 * 86400 ≤ g.date := by
  constructor
  · rw [callTool_assignments_eq w1 req1 n aItems hA] at ha
    exact due_of_scrapeMissingAssignments _ _ _ _ ha
  · rw [callTool_grades_eq w2 req2 cf gItems hG] at hg
    exact grade_of_scrapeCourseGrades _ _ _ _ _ hg

/-- Witness for C1 at a concrete world: a one-row assignment table due
2024-03-15 against a clock of 2024-03-20 with the default 14-day window,
and a one-row overview grade table on the same dates. -/
theorem tool_results_respect_recency_window_witness :
    ((⟨"hw", "math", some ⟨2024, 3, 15⟩, "missing", none, none, none⟩ : Assignment).due_date
        = none
      ∨ ∃ d, (⟨"hw", "math", some ⟨2024, 3, 15⟩, "missing", none, none,
          none⟩ : Assignment).due_date = some d
        ∧ (⟨dateInstant ⟨2024, 3, 20⟩, "t", false,
              ⟨["table"], [["h", "c", "d"], ["hw", "math", "03/15/2024"]], []⟩,
              fun _ => ⟨[], [], []⟩⟩ : World).now
            - ((⟨"check_missing_assignments", none, none⟩ : ToolRequest).since_days.getD 14)
              * 86400 ≤ dateInstant d)
    ∧ (⟨dateInstant ⟨2024, 3, 20⟩, "t", false, ⟨[], [], []⟩,
          fun _ => ⟨["table"], [["h", "x"], ["B+", "03/15/2024"]], []⟩⟩ : World).now
        - ((⟨"get_course_grades", none, none⟩ : ToolRequest).since_days.getD 14) * 86400
        ≤ (⟨"Overview", dateInstant ⟨2024, 3, 15⟩, none⟩ : GradeSample).date :=
  tool_results_respect_recency_window
    ⟨dateInstant ⟨2024, 3, 20⟩, "t", false,
      ⟨["table"], [["h", "c", "d"], ["hw", "math", "03/15/2024"]], []⟩, fun _ => ⟨[], [], []⟩⟩
    ⟨dateInstant ⟨2024, 3, 20⟩, "t", false, ⟨[], [], []⟩,
      fun _ => ⟨["table"], [["h", "x"], ["B+", "03/15/2024"]], []⟩⟩
    ⟨"check_missing_assignments", none, none⟩ ⟨"get_course_grades", none, none⟩
    1 [⟨"hw", "math", some ⟨2024, 3, 15⟩, "missing", none, none, none⟩]
    ⟨"hw", "math", some ⟨2024, 3, 15⟩, "missing", none, none, none⟩
    none [⟨"Overview", dateInstant ⟨2024, 3, 15⟩, none⟩]
    ⟨"Overview", dateInstant ⟨2024, 3, 15⟩, none⟩
    (by decide) (by decide) (by decide) (by decide) (by decide) (by decide)

/-- Claim C2 counterexample: the stdio dispatcher (`server.py`
`handle_call_tool`) does not return a `{success: false, ...}` envelope
for the unknown tool name `"nonexistent"`; it raises
`ValueError("Unknown tool: nonexistent")` to the transport layer. -/
theorem stdio_dispatcher_raises_on_unknown_tool :
    handleCallTool ⟨0, "t", false, [], []⟩ "nonexistent" ⟨none, none⟩
      = Except.error "Unknown tool: nonexistent" := rfl

/-- Claim C2 as amended: for every tool name outside the three known
operations, the configured HTTP dispatcher returns the envelope
`{success: false, error: "Unknown tool: <name>"}` without raising, while
the stdio dispatcher raises `ValueError` with the same message to the
transport layer. -/
theorem unknown_tool_envelope_or_raise
    (w : World) (ws : StdioWorld) (req : ToolRequest) (args : ToolArgs)
    (h1 : req.tool ≠ "check_missing_assignments")
    (h2 : req.tool ≠ "get_course_grades")
    (h3 : req.tool ≠ "health") :
    callTool w req = ⟨false, none, some ("Unknown tool: " ++ req.tool)⟩
    ∧ handleCallTool ws req.tool args = Except.error ("Unknown tool: " ++ req.tool) := by
  unfold callTool handleCallTool
  rw [if_neg h1, if_neg h2, if_neg h3, if_neg h1, if_neg h2, if_neg h3]
  exact ⟨rfl, rfl⟩

/-- Witness for the amended C2 at the tool name `"nonexistent"`. -/
theorem unknown_tool_envelope_or_raise_witness :
    callTool ⟨0, "t", false, ⟨[], [], []⟩, fun _ => ⟨[], [], []⟩⟩
        ⟨"nonexistent", none, none⟩
      = ⟨false, none, some ("Unknown tool: " ++ "nonexistent")⟩
    ∧ handleCallTool ⟨0, "t", false, [], []⟩ "nonexistent" ⟨none, none⟩
      = Except.error ("Unknown tool: " ++ "nonexistent") :=
  unknown_tool_envelope_or_raise ⟨0, "t", false, ⟨[], [], []⟩, fun _ => ⟨[], [], []⟩⟩
    ⟨0, "t", false, [], []⟩ ⟨"nonexistent", none, none⟩ ⟨none, none⟩
    (by decide) (by decide) (by decide)

/-- Claim C3: a grade row whose date text parses under no format yields a
sample whose `date` is the current time, and for every `since_days ≥ 0`
that sample passes the recency filter and is in the returned list. -/
theorem unparsable_grade_date_defaults_to_now
    (p : PageContent) (cname : String) (now sd : Int) (cells : List String)
    (hsd : 0 ≤ sd)
    (htab : gradeTableSelectors.find? (hasSel p) ≠ none)
    (hmem : cells ∈ p.tableRows.tail)
    (hlen : 2 ≤ cells.length)
    (hunp : pyParseDateText (cells.getD 1 "") = none) :
    (gradeRowSample cname now cells).date = now
    ∧ gradeRowSample cname now cells ∈ extractGradesFromPage p cname (now - sd * 86400) now := by
  have hdate : gradeRowDate now cells = now := by
    unfold gradeRowDate
    rw [hunp]
  refine ⟨hdate, ?_⟩
  obtain ⟨sel, hsel⟩ := Option.ne_none_iff_exists'.mp htab
  unfold extractGradesFromPage
  rw [hsel]
  refine List.mem_filterMap.mpr ⟨cells, hmem, ?_⟩
  unfold processGradeRow
  rw [if_neg (by omega : ¬cells.length < 2), if_pos]
  rw [hdate]
  have : (0 : Int) ≤ sd * 86400 := mul_nonneg hsd (by norm_num)
  omega

/-- Witness for C3: the row `["B+", "not-a-date"]` of a concrete grade
table, clock 5, window 14 days. -/
theorem unparsable_grade_date_defaults_to_now_witness :
    (gradeRowSample "overview" 5 ["B+", "not-a-date"]).date = 5
    ∧ gradeRowSample "overview" 5 ["B+", "not-a-date"]
        ∈ extractGradesFromPage ⟨["table"], [["h", "x"], ["B+", "not-a-date"]], []⟩
            "overview" (5 - 14 * 86400) 5 :=
  unparsable_grade_date_defaults_to_now
    ⟨["table"], [["h", "x"], ["B+", "not-a-date"]], []⟩ "overview" 5 14
    ["B+", "not-a-date"] (by decide) (by decide) (by decide) (by decide) (by decide)

/-- Claim C4: the ordered-format date parser maps each of the five
literal inputs to March 15 2024; `"not-a-date"` parses under no format,
and an assignment row carrying it is built with an absent `due_date`. -/
theorem extractor_date_parsing :
    parseDateFormats "03/15/2024" = some ⟨2024, 3, 15⟩
    ∧ parseDateFormats "2024-03-15" = some ⟨2024, 3, 15⟩
    ∧ parseDateFormats "Mar 15, 2024" = some ⟨2024, 3, 15⟩
    ∧ parseDateFormats "03-15-2024" = some ⟨2024, 3, 15⟩
    ∧ parseDateFormats "03/15/24" = some ⟨2024, 3, 15⟩
    ∧ parseDateFormats "not-a-date" = none
    ∧ (∀ cutoff : Int, ∀ t c : String,
        processAssignmentRow cutoff [t, c, "not-a-date"]
          = some ⟨pyStrip t, pyStrip c, none, "missing", none, none, none⟩) := by
  refine ⟨by decide, by decide, by decide, by decide, by decide, by decide, ?_⟩
  intro cutoff t c
  unfold processAssignmentRow
  rw [if_neg (by simp : ¬([t, c, "not-a-date"] : List String).length < 3)]
  dsimp only
  rw [show ([t, c, "not-a-date"] : List String).getD 2 "" = "not-a-date" from rfl]
  rw [show pyParseDateText "not-a-date" = none by decide]
  rfl

/-- Claim C5: evaluation at the failing input. A truthy course filter that
resolves through no alias (here `"history"`) makes `scrape_course_grades`
return the still-empty list and navigate to no page at all, although the
overview page (scraped when no filter is given, and announced by the
`getting all grades` log and the `Fall through to get all grades`
comment) holds extractable grade records. -/
theorem unresolved_filter_skips_overview :
    resolveCourseKey "history" = none
    ∧ courseGradesTarget (some "history") = none
    ∧ courseGradesTarget none = some gradesOverviewUrl
    ∧ scrapeCourseGrades
        ⟨0, "t", false, ⟨[], [], []⟩,
          fun _ => ⟨["table"], [["h", "x"], ["90", "03/15/2024"]], []⟩⟩
        (some "history") 0 14 = []
    ∧ scrapeCourseGrades
        ⟨0, "t", false, ⟨[], [], []⟩,
          fun _ => ⟨["table"], [["h", "x"], ["90", "03/15/2024"]], []⟩⟩
        none 0 14
      = [⟨"Overview", dateInstant ⟨2024, 3, 15⟩, some 90⟩] :=
  ⟨by decide, by decide, by decide, by decide, by decide⟩

/-- Claim C6: the filter text `"Math"` resolves case-insensitively
through the alias table to the canonical key `pre_algebra`, so the
dispatcher navigates to the dedicated pre-algebra course page and not to
the aggregate overview page. -/
theorem math_filter_targets_pre_algebra_page :
    resolveCourseKey "Math" = some "pre_algebra"
    ∧ courseGradesTarget (some "Math") = some preAlgebraUrl
    ∧ preAlgebraUrl ≠ gradesOverviewUrl :=
  ⟨by decide, by decide, by decide⟩

/-- Claim C7: on a login page showing no logged-in marker and matching no
username-field candidate selector, `ensure_login` returns the aborted
outcome — an ordinary return, no exception, no session state persisted —
and a subsequent extraction against a page with no data table and no
cards returns the empty list rather than throwing. -/
theorem ensure_login_missing_username_fail_soft
    (loginPage pwPage postPage extractionPage : PageContent) (now sd : Int)
    (hNoMarker : improvedLoggedInIndicators.any (hasSel loginPage) = false)
    (hNoUser : usernameSelectors.find? (hasSel loginPage) = none)
    (hNoTable : assignmentTableSelectors.find? (hasSel extractionPage) = none)
    (hNoCards : assignmentCardSelectors.find? (hasSel extractionPage) = none) :
    ensureLogin loginPage pwPage postPage = (LoginOutcome.abortedNoUsername, false)
    ∧ scrapeMissingAssignments extractionPage now sd = [] := by
  constructor
  · unfold ensureLogin
    rw [hNoMarker, hNoUser]
    rfl
  · unfold scrapeMissingAssignments
    rw [hNoTable, hNoCards]

/-- Witness for C7: blank login and extraction pages. -/
theorem ensure_login_missing_username_fail_soft_witness :
    ensureLogin ⟨[], [], []⟩ ⟨[], [], []⟩ ⟨[], [], []⟩
      = (LoginOutcome.abortedNoUsername, false)
    ∧ scrapeMissingAssignments ⟨[], [], []⟩ 0 14 = [] :=
  ensure_login_missing_username_fail_soft ⟨[], [], []⟩ ⟨[], [], []⟩ ⟨[], [], []⟩
    ⟨[], [], []⟩ 0 14 (by decide) (by decide) (by decide) (by decide)

/-- Claim C8 counterexample: for a session-state file that exists on disk
but is corrupt, `get_context` does not behave as if there were no prior
session — it still passes `STATE_PATH` as the `storage_state` argument,
since the only guard is `os.path.exists`; the file's content is never
validated and no error from the context constructor is caught. -/
theorem corrupt_state_file_still_hydrates :
    (getContext ⟨true, false⟩).storageState ≠ none := by decide

/-- Claim C8 as amended: `get_context` hydrates the new browser context
from the session-state file exactly when the file exists on disk,
regardless of the file's validity; only a missing file is treated as "no
prior session" (`storage_state=None`). -/
theorem get_context_hydrates_iff_on_disk (v : Bool) :
    (getContext ⟨false, v⟩).storageState = none
    ∧ (getContext ⟨true, v⟩).storageState = some STATE_PATH :=
  ⟨rfl, rfl⟩

/-- Claim C9: alias resolution asks whether the lowercased alias key is a
substring of the lowercased filter text, scanning the table in listed
order and taking the first hit: for `"Spanish Literature"` both `"lit"`
and `"spanish"` match, and the earlier-listed `"lit"` wins, resolving to
`lang_lit`; in the other direction `"ma"` — a substring of the key
`"math"` — resolves to nothing, because no key is a substring of it. -/
theorem alias_resolution_is_key_in_filter_first_listed :
    resolveCourseKey "Spanish Literature" = some "lang_lit"
    ∧ isSubstring (pyLower "spanish").toList (pyLower "Spanish Literature").toList = true
    ∧ resolveCourseKey "Spanish" = some "spanish_2"
    ∧ resolveCourseKey "ma" = none
    ∧ isSubstring (pyLower "ma").toList (pyLower "math").toList = true :=
  ⟨by decide, by decide, by decide, by decide, by decide⟩

/-- Claim C10: after a filter resolves to a canonical course key with a
dedicated page, the returned list is exactly the extraction of that page
under the key — the filter text is not re-applied to the records — and
every returned sample's course field is the canonical key with
underscores turned into spaces and title-cased (`"pre_algebra"` becomes
`"Pre Algebra"`), never the course name displayed on the page. -/
theorem per_course_samples_use_canonical_course_name
    (w : World) (f key url : String) (now sd : Int) (g : GradeSample)
    (hf : strTruthy (some f) = true)
    (hres : resolveCourseKey f = some key)
    (hurl : classUrlOf key = some url)
    (hg : g ∈ scrapeCourseGrades w (some f) now sd) :
    scrapeCourseGrades w (some f) now sd
      = extractGradesFromPage (w.pageAt url) key (now - sd * 86400) now
    ∧ g.course = pythonTitle (underscoresToSpaces key)
    ∧ pythonTitle (underscoresToSpaces "pre_algebra") = "Pre Algebra" := by
  have heq : scrapeCourseGrades w (some f) now sd
      = extractGradesFromPage (w.pageAt url) key (now - sd * 86400) now := by
    unfold scrapeCourseGrades
    rw [hf]
    rw [if_pos rfl]
    rw [show (some f).getD "" = f from rfl, hres]
    dsimp only
    rw [hurl]
  refine ⟨heq, ?_, by decide⟩
  rw [heq] at hg
  exact (grade_of_extractGradesFromPage _ _ _ _ _ hg).2

/-- Witness for C10: the filter `"Math"`, a concrete pre-algebra page
with one grade row, clock 0, window 14 days. -/
theorem per_course_samples_use_canonical_course_name_witness :
    scrapeCourseGrades
        ⟨0, "t", false, ⟨[], [], []⟩,
          fun _ => ⟨["table"], [["h", "x"], ["90", "03/15/2024"]], []⟩⟩
        (some "Math") 0 14
      = extractGradesFromPage
          ((fun _ => (⟨["table"], [["h", "x"], ["90", "03/15/2024"]], []⟩ : PageContent))
            preAlgebraUrl)
          "pre_algebra" (0 - 14 * 86400) 0
    ∧ (⟨"Pre Algebra", dateInstant ⟨2024, 3, 15⟩, some 90⟩ : GradeSample).course
        = pythonTitle (underscoresToSpaces "pre_algebra")
    ∧ pythonTitle (underscoresToSpaces "pre_algebra") = "Pre Algebra" :=
  per_course_samples_use_canonical_course_name
    ⟨0, "t", false, ⟨[], [], []⟩,
      fun _ => ⟨["table"], [["h", "x"], ["90", "03/15/2024"]], []⟩⟩
    "Math" "pre_algebra" preAlgebraUrl 0 14
    ⟨"Pre Algebra", dateInstant ⟨2024, 3, 15⟩, some 90⟩
    (by decide) (by decide) (by decide) (by decide)
